import Mathlib

/-!
Verification of the YOS_rentals booking core: a shallow embedding of the
availability, pricing, lifecycle and payment logic of the two parallel
Django apps (ceo and vehicle), with theorems checking the specification
claims against it.

Conventions of the embedding:
* timestamps are integers counting seconds (Python datetimes);
  the number of days between two timestamps is floor division by 86400,
  matching Python timedelta.days;
* money values are rationals (Python Decimal values; the literals 0.1 and
  0.2 in the source are the rates 1/10 and 1/5);
* Django querysets over bookings are lists; a filter is a Bool predicate;
* each view action returns the updated entities together with the count of
  BookingHistory rows appended during the action.
-/

/-- Number of whole days from timestamp s to timestamp e
(Python timedelta.days: floor division of the difference by 86400). -/
def daysBetween (s e : Int) : Int := Int.fdiv (e - s) 86400

/-- Booking status choices of the ceo app (ceo/models.py Booking.status). -/
inductive CeoBookingStatus where
  | pending | confirmed | active | completed | cancelled | noShow
deriving DecidableEq, Repr

/-- Car status choices of the ceo app (ceo/models.py Car.status). -/
inductive CarStatus where
  | available | rented | maintenance | reserved
deriving DecidableEq, Repr

/-- Booking status choices of the vehicle app (vehicle/models.py BOOKING_STATUS). -/
inductive VehBookingStatus where
  | pending | confirmed | inProgress | completed | cancelled
deriving DecidableEq, Repr

/-- Payment status choices of the vehicle app (vehicle/models.py PAYMENT_STATUS). -/
inductive PayStatus where
  | pending | completed | failed | refunded
deriving DecidableEq, Repr

/-- Vehicle status choices of the vehicle app (vehicle/models.py VEHICLE_STATUS_CHOICES). -/
inductive VehicleStatus where
  | available | inUse | maintenance | unavailable
deriving DecidableEq, Repr

/-- Errors surfaced as 400 responses or serializer validation errors. -/
inductive AppError where
  | carUnavailable
  | selfDriveFieldMissing
  | licenseExpired
  | driverRequired
  | returnBeforePickup
  | pickupInPast
  | vehicleUnavailable
  | invalidTransition
deriving DecidableEq, Repr

/-- Outcome of an operation: the value, or a 400-class error. -/
inductive Res (α : Type) where
  | ok (a : α)
  | error (e : AppError)
deriving DecidableEq, Repr

/-- A Booking row of the ceo app (ceo/models.py Booking), restricted to the
fields the booking logic reads or writes. -/
structure CeoBooking where
  carId : Nat
  start_date : Int
  end_date : Int
  daily_rate : ℚ
  duration_days : Int
  subtotal : ℚ
  tax_amount : ℚ
  total_amount : ℚ
  status : CeoBookingStatus
  cancellation_date : Option Int
deriving DecidableEq, Repr

/-- A Booking row of the vehicle app (vehicle/models.py Booking), restricted
to the fields the booking logic reads or writes. -/
structure VehBooking where
  vehicleId : Nat
  pickup_date : Int
  return_date : Int
  rental_days : Int
  daily_rate : ℚ
  subtotal : ℚ
  tax_amount : ℚ
  security_deposit : ℚ
  late_fee : ℚ
  total_amount : ℚ
  amount_paid : ℚ
  balance_due : ℚ
  status : VehBookingStatus
  payment_status : PayStatus
deriving DecidableEq, Repr

/-- The queryset filter of ceo/views.py CarViewSet.available and
ceo/serializers.py BookingSerializer.validate: a ceo booking blocks car
carId over the half-open range given by s and e. -/
def ceoConflicts (b : CeoBooking) (carId : Nat) (s e : Int) : Bool :=
  b.carId == carId &&
    (b.status == .confirmed || b.status == .active) &&
    decide (b.start_date < e) && decide (b.end_date > s)

/-- The queryset filter of vehicle/serializers.py BookingSerializer.validate
and vehicle/views.py VehicleViewSet.available_vehicles. -/
def vehConflicts (b : VehBooking) (vehicleId : Nat) (s e : Int) : Bool :=
  b.vehicleId == vehicleId &&
    (b.status == .confirmed || b.status == .inProgress) &&
    decide (b.pickup_date < e) && decide (b.return_date > s)

/-- Availability of a car over a range, as in CarViewSet.available: no
existing booking conflicts. -/
def ceoIsAvailable (bookings : List CeoBooking) (carId : Nat) (s e : Int) : Bool :=
  !(bookings.any fun b => ceoConflicts b carId s e)

/-- Pricing block computed at booking creation in the ceo app. -/
structure CeoPricing where
  daily_rate : ℚ
  duration_days : Int
  subtotal : ℚ
  tax_amount : ℚ
  total_amount : ℚ
deriving DecidableEq, Repr

/-- Pricing computation of ceo/serializers.py BookingSerializer.create and
BookingCreateSerializer.create. -/
def ceoComputePricing (daily_rate : ℚ) (s e : Int) : CeoPricing :=
  let d : Int := max 1 (daysBetween s e)
  let sub : ℚ := daily_rate * (d : ℚ)
  let tax : ℚ := sub * (1 / 10)
  { daily_rate := daily_rate, duration_days := d, subtotal := sub,
    tax_amount := tax, total_amount := sub + tax }

/-- Claim C1: for bookings on the same resource, a conflict holds exactly
when the existing booking has status confirmed or active (in_progress in the
vehicle app) and the intervals strictly overlap; touching endpoints never
conflict, and pending, cancelled or completed bookings never block. -/
theorem conflict_iff_strict_overlap :
    (∀ (b : CeoBooking) (c : Nat) (s e : Int),
      (ceoConflicts b c s e = true ↔
        b.carId = c ∧ (b.status = .confirmed ∨ b.status = .active) ∧
          b.start_date < e ∧ s < b.end_date) ∧
      (b.end_date = s → ceoConflicts b c s e = false) ∧
      (b.start_date = e → ceoConflicts b c s e = false) ∧
      ((b.status = .pending ∨ b.status = .cancelled ∨ b.status = .completed) →
        ceoConflicts b c s e = false)) ∧
    (∀ (b : VehBooking) (v : Nat) (s e : Int),
      (vehConflicts b v s e = true ↔
        b.vehicleId = v ∧ (b.status = .confirmed ∨ b.status = .inProgress) ∧
          b.pickup_date < e ∧ s < b.return_date) ∧
      (b.return_date = s → vehConflicts b v s e = false) ∧
      (b.pickup_date = e → vehConflicts b v s e = false) ∧
      ((b.status = .pending ∨ b.status = .cancelled ∨ b.status = .completed) →
        vehConflicts b v s e = false)) := by
  constructor
  · intro b c s e
    have hiff : ceoConflicts b c s e = true ↔
        b.carId = c ∧ (b.status = .confirmed ∨ b.status = .active) ∧
          b.start_date < e ∧ s < b.end_date := by
      simp [ceoConflicts]; tauto
    refine ⟨hiff, ?_, ?_, ?_⟩
    · intro h
      cases hc : ceoConflicts b c s e
      · rfl
      · exact absurd ((hiff.mp hc).2.2.2) (by rw [h]; exact lt_irrefl s)
    · intro h
      cases hc : ceoConflicts b c s e
      · rfl
      · exact absurd ((hiff.mp hc).2.2.1) (by rw [h]; exact lt_irrefl e)
    · intro h
      cases hc : ceoConflicts b c s e
      · rfl
      · rcases (hiff.mp hc).2.1 with h2 | h2 <;>
          rcases h with h1 | h1 | h1 <;> rw [h1] at h2 <;> exact absurd h2 (by simp)
  · intro b v s e
    have hiff : vehConflicts b v s e = true ↔
        b.vehicleId = v ∧ (b.status = .confirmed ∨ b.status = .inProgress) ∧
          b.pickup_date < e ∧ s < b.return_date := by
      simp [vehConflicts]; tauto
    refine ⟨hiff, ?_, ?_, ?_⟩
    · intro h
      cases hc : vehConflicts b v s e
      · rfl
      · exact absurd ((hiff.mp hc).2.2.2) (by rw [h]; exact lt_irrefl s)
    · intro h
      cases hc : vehConflicts b v s e
      · rfl
      · exact absurd ((hiff.mp hc).2.2.1) (by rw [h]; exact lt_irrefl e)
    · intro h
      cases hc : vehConflicts b v s e
      · rfl
      · rcases (hiff.mp hc).2.1 with h2 | h2 <;>
          rcases h with h1 | h1 | h1 <;> rw [h1] at h2 <;> exact absurd h2 (by simp)

/-- A confirmed booking of car 0 occupying the first day, used as a concrete
input by witnesses. -/
def dayOneBooking : CeoBooking :=
  { carId := 0, start_date := 0, end_date := 86400, daily_rate := 100,
    duration_days := 1, subtotal := 100, tax_amount := 10, total_amount := 110,
    status := .confirmed, cancellation_date := none }

/-- Witness for claim C1: the confirmed day-one booking does not conflict
with the touching range starting exactly at its end. -/
theorem conflict_iff_strict_overlap_witness :
    ceoConflicts dayOneBooking 0 86400 172800 = false :=
  (conflict_iff_strict_overlap.1 dayOneBooking 0 86400 172800).2.1 rfl

/-- The save override of ceo/models.py Booking.save: whenever both dates are
set (they are non-nullable) the duration is recomputed, and when daily_rate
is nonzero (Python truthiness) subtotal and total_amount are recomputed as
subtotal plus tax_amount, overwriting whatever total was stored. -/
def ceoBookingSave (b : CeoBooking) : CeoBooking :=
  let d : Int := max 1 (daysBetween b.start_date b.end_date)
  if b.daily_rate ≠ 0 then
    let sub : ℚ := b.daily_rate * (d : ℚ)
    { b with duration_days := d, subtotal := sub, total_amount := sub + b.tax_amount }
  else
    { b with duration_days := d }

/-- The pre_save receiver of ceo/signals.py create_booking_history, applied
to a save of a stored booking whose status may have changed: it returns the
number of BookingHistory rows it appends (one when the status changed) and
the car status it leaves behind (rented on confirmed, available on
completed or cancelled, otherwise untouched). -/
def signalOnSave (oldStatus newStatus : CeoBookingStatus) (car : CarStatus) :
    Nat × CarStatus :=
  if oldStatus ≠ newStatus then
    (1,
      if newStatus = .confirmed then .rented
      else if newStatus = .completed ∨ newStatus = .cancelled then .available
      else car)
  else (0, car)

/-- Result of a ceo BookingViewSet action: the saved booking, the car status
after the action, and how many BookingHistory rows were appended. -/
structure CeoActionResult where
  booking : CeoBooking
  carStatusAfter : CarStatus
  historyAppended : Nat
deriving DecidableEq, Repr

/-- The can_cancel property of ceo/models.py Booking. -/
def ceoCanCancel (b : CeoBooking) (now : Int) : Bool :=
  (b.status == .pending || b.status == .confirmed) && decide (now < b.start_date)

/-- ceo/views.py BookingViewSet.confirm: only pending bookings may be
confirmed; the save fires the signal and the view appends one more history
row. -/
def ceoConfirmAction (b : CeoBooking) (car : CarStatus) : Res CeoActionResult :=
  if b.status ≠ .pending then .error .invalidTransition
  else
    let sc := signalOnSave b.status .confirmed car
    let saved := ceoBookingSave { b with status := .confirmed }
    .ok { booking := saved, carStatusAfter := sc.2, historyAppended := sc.1 + 1 }

/-- ceo/views.py BookingViewSet.cancel: guarded by can_cancel; the view then
appends a history row (besides the one from the signal) and sets the car
status to available. -/
def ceoCancelAction (b : CeoBooking) (car : CarStatus) (now : Int) :
    Res CeoActionResult :=
  if ceoCanCancel b now then
    let sc := signalOnSave b.status .cancelled car
    let saved := ceoBookingSave { b with status := .cancelled, cancellation_date := some now }
    .ok { booking := saved, carStatusAfter := .available, historyAppended := sc.1 + 1 }
  else .error .invalidTransition

/-- ceo/views.py BookingViewSet.checkout: only confirmed bookings. -/
def ceoCheckoutAction (b : CeoBooking) (car : CarStatus) : Res CeoActionResult :=
  if b.status ≠ .confirmed then .error .invalidTransition
  else
    let sc := signalOnSave b.status .active car
    let saved := ceoBookingSave { b with status := .active }
    .ok { booking := saved, carStatusAfter := sc.2, historyAppended := sc.1 + 1 }

/-- ceo/views.py BookingViewSet.checkin: only active bookings; the view sets
the car status to available. -/
def ceoCheckinAction (b : CeoBooking) (car : CarStatus) : Res CeoActionResult :=
  if b.status ≠ .active then .error .invalidTransition
  else
    let sc := signalOnSave b.status .completed car
    let saved := ceoBookingSave { b with status := .completed }
    .ok { booking := saved, carStatusAfter := .available, historyAppended := sc.1 + 1 }

/-- A Customer row of the ceo app, restricted to its aggregate fields. -/
structure CeoCustomer where
  total_bookings : Int
  total_spent : ℚ
  average_rating : ℚ
deriving DecidableEq, Repr

/-- ceo/models.py Customer.update_stats. -/
def customerUpdateStats (c : CeoCustomer) (booking_amount : ℚ) : CeoCustomer :=
  { c with total_bookings := c.total_bookings + 1,
           total_spent := c.total_spent + booking_amount }

/-- Result of ceo/serializers.py BookingCreateSerializer.create. -/
structure CeoCreateResult where
  booking : CeoBooking
  historyAppended : Nat
  customerAfter : CeoCustomer
  carStatusAfter : CarStatus
deriving DecidableEq, Repr

/-- ceo/serializers.py BookingCreateSerializer.create: computes the pricing,
creates the booking (status defaults to pending), appends one explicit
history row, updates the customer aggregates, and sets the car status to
rented. -/
def ceoBookingCreate (carId : Nat) (daily_rate : ℚ) (s e : Int)
    (cust : CeoCustomer) : CeoCreateResult :=
  let p := ceoComputePricing daily_rate s e
  let b : CeoBooking :=
    { carId := carId, start_date := s, end_date := e,
      daily_rate := p.daily_rate, duration_days := p.duration_days,
      subtotal := p.subtotal, tax_amount := p.tax_amount,
      total_amount := p.total_amount, status := .pending,
      cancellation_date := none }
  { booking := ceoBookingSave b, historyAppended := 1,
    customerAfter := customerUpdateStats cust p.total_amount,
    carStatusAfter := .rented }

/-- Number of completed bookings in a list (the aggregate the spec says the
customer counters must equal). -/
def completedCount (bs : List CeoBooking) : Int :=
  ((bs.filter fun b => b.status == .completed).length : Int)

/-- Outcome of a serializer validate call, recording whether the
overlapping-bookings availability query was executed. -/
structure ValidateResult (α : Type) where
  outcome : Res α
  availabilityChecked : Bool
deriving DecidableEq, Repr

/-- ceo/serializers.py BookingSerializer.validate: runs the availability
query first (there is no check of the date order), then the self-drive or
driver validations. licenseExpiry only matters when the self-drive fields
are present. -/
def ceoValidate (existing : List CeoBooking) (carId : Nat) (s e : Int)
    (selfDrive licenseFieldsPresent : Bool) (licenseExpiry : Int)
    (driverPresent : Bool) (today : Int) : ValidateResult Unit :=
  if existing.any fun b => ceoConflicts b carId s e then
    { outcome := .error .carUnavailable, availabilityChecked := true }
  else if selfDrive then
    if !licenseFieldsPresent then
      { outcome := .error .selfDriveFieldMissing, availabilityChecked := true }
    else if licenseExpiry < today then
      { outcome := .error .licenseExpired, availabilityChecked := true }
    else { outcome := .ok (), availabilityChecked := true }
  else if !driverPresent then
    { outcome := .error .driverRequired, availabilityChecked := true }
  else { outcome := .ok (), availabilityChecked := true }

/-- vehicle/serializers.py BookingSerializer.validate: rejects
pickup_date >= return_date, then pickup dates in the past, and only then
computes rental_days (with no 1-day floor) and runs the availability
query; on success it returns the computed rental_days. -/
def vehValidate (existing : List VehBooking) (vehicleId : Nat)
    (pickup ret now : Int) : ValidateResult Int :=
  if pickup ≥ ret then
    { outcome := .error .returnBeforePickup, availabilityChecked := false }
  else if pickup < now then
    { outcome := .error .pickupInPast, availabilityChecked := false }
  else
    let rental_days := daysBetween pickup ret
    if existing.any fun b => vehConflicts b vehicleId pickup ret then
      { outcome := .error .vehicleUnavailable, availabilityChecked := true }
    else { outcome := .ok rental_days, availabilityChecked := true }

/-- The save override of vehicle/models.py Booking.save: balance_due is
recomputed as total_amount minus amount_paid, with no clamping at zero. -/
def vehBookingSave (b : VehBooking) : VehBooking :=
  { b with balance_due := b.total_amount - b.amount_paid }

/-- Result of vehicle/serializers.py BookingSerializer.create. -/
structure VehCreateResult where
  booking : VehBooking
  vehicleStatusAfter : VehicleStatus
  availabilityCreated : Bool
deriving DecidableEq, Repr

/-- vehicle/serializers.py BookingSerializer.create: subtotal is daily_rate
times the rental_days computed by validate, the total adds the security
deposit (tax_amount stays 0), a VehicleAvailability record is created for
the range, and the vehicle status is set to in_use. -/
def vehBookingCreate (vehicleId : Nat) (daily_rate security_deposit : ℚ)
    (pickup ret : Int) (rental_days : Int) : VehCreateResult :=
  let sub : ℚ := daily_rate * (rental_days : ℚ)
  let total : ℚ := sub + security_deposit
  let b : VehBooking :=
    { vehicleId := vehicleId, pickup_date := pickup, return_date := ret,
      rental_days := rental_days, daily_rate := daily_rate, subtotal := sub,
      tax_amount := 0, security_deposit := security_deposit, late_fee := 0,
      total_amount := total, amount_paid := 0, balance_due := total,
      status := .pending, payment_status := .pending }
  { booking := vehBookingSave b, vehicleStatusAfter := .inUse,
    availabilityCreated := true }

/-- Result of vehicle/views.py BookingViewSet.cancel_booking. -/
structure VehCancelResult where
  booking : VehBooking
  vehicleStatusAfter : VehicleStatus
  availabilityRemoved : Bool
deriving DecidableEq, Repr

/-- vehicle/views.py BookingViewSet.cancel_booking: completed and cancelled
bookings are rejected; fewer than 48 hours before pickup a 20 percent
cancellation fee is added to late_fee, total_amount and balance_due; the
booking is saved as cancelled, the vehicle becomes available, and the
availability record is deleted. -/
def vehCancelBooking (b : VehBooking) (now : Int) : Res VehCancelResult :=
  if b.status = .completed ∨ b.status = .cancelled then .error .invalidTransition
  else
    let hoursBefore : ℚ := ((b.pickup_date - now : Int) : ℚ) / 3600
    let b1 :=
      if hoursBefore < 48 then
        let fee := b.total_amount * (2 / 10)
        { b with late_fee := fee, total_amount := b.total_amount + fee,
                 balance_due := b.balance_due + fee }
      else b
    .ok { booking := vehBookingSave { b1 with status := .cancelled },
          vehicleStatusAfter := .available, availabilityRemoved := true }

/-- Result of vehicle/serializers.py PaymentSerializer.create. -/
structure VehPaymentResult where
  booking : VehBooking
  receiptCreated : Bool
deriving DecidableEq, Repr

/-- vehicle/serializers.py PaymentSerializer.create: adds the amount to
amount_paid, recomputes balance_due without clamping, marks the payment
completed and sets the booking status to confirmed whenever the balance is
nonpositive (otherwise payment_status goes back to pending), saves the
booking, and creates a Receipt when the payment is complete. -/
def vehApplyPayment (b : VehBooking) (amount : ℚ) : VehPaymentResult :=
  let paid := b.amount_paid + amount
  let bal := b.total_amount - paid
  let b1 :=
    if bal ≤ 0 then
      { b with amount_paid := paid, balance_due := bal,
               payment_status := .completed, status := .confirmed }
    else
      { b with amount_paid := paid, balance_due := bal,
               payment_status := .pending }
  let saved := vehBookingSave b1
  { booking := saved, receiptCreated := saved.payment_status == .completed }

/-- ceoBookingSave never changes the status field. -/
theorem ceoBookingSave_status (b : CeoBooking) : (ceoBookingSave b).status = b.status := by
  unfold ceoBookingSave; split <;> rfl

/-- Claim C2 counterexample: in the vehicle app a 10-hour booking (pickup at
second 0, return at second 36000) passes validation with rental_days 0, so
the stored duration is 0 and not max 1 of the day count as the claim states. -/
theorem vehicle_duration_floor_counterexample :
    (vehValidate [] 0 0 36000 (-1)).outcome = Res.ok 0 ∧
    (vehBookingCreate 0 100 50 0 36000 0).booking.rental_days ≠
      max 1 (daysBetween 0 36000) := by decide

/-- Claim C2 as amended: in the ceo app the stored pricing satisfies
duration_days = max 1 (days between the dates), subtotal = daily_rate times
duration, tax_amount = subtotal times 1/10 and total_amount = subtotal plus
tax_amount, and the 3-day scenario at rate 100 yields 3, 300, 30, 330; in
the vehicle app rental_days is the raw day count from validate with no
1-day floor, tax_amount is 0 and total_amount = subtotal plus the security
deposit. -/
theorem pricing_amended :
    (∀ (rate : ℚ) (s e : Int),
      (ceoComputePricing rate s e).duration_days = max 1 (daysBetween s e) ∧
      (ceoComputePricing rate s e).subtotal =
        rate * ((max 1 (daysBetween s e) : Int) : ℚ) ∧
      (ceoComputePricing rate s e).tax_amount =
        (ceoComputePricing rate s e).subtotal * (1 / 10) ∧
      (ceoComputePricing rate s e).total_amount =
        (ceoComputePricing rate s e).subtotal + (ceoComputePricing rate s e).tax_amount) ∧
    ((ceoComputePricing 100 0 259200).duration_days = 3 ∧
      (ceoComputePricing 100 0 259200).subtotal = 300 ∧
      (ceoComputePricing 100 0 259200).tax_amount = 30 ∧
      (ceoComputePricing 100 0 259200).total_amount = 330) ∧
    (∀ (vid : Nat) (rate dep : ℚ) (p r days : Int),
      (vehBookingCreate vid rate dep p r days).booking.rental_days = days ∧
      (vehBookingCreate vid rate dep p r days).booking.subtotal = rate * (days : ℚ) ∧
      (vehBookingCreate vid rate dep p r days).booking.tax_amount = 0 ∧
      (vehBookingCreate vid rate dep p r days).booking.total_amount =
        rate * (days : ℚ) + dep) ∧
    (∀ (ex : List VehBooking) (vid : Nat) (p r now d : Int),
      (vehValidate ex vid p r now).outcome = Res.ok d → d = daysBetween p r) := by
  refine ⟨fun rate s e => ⟨rfl, rfl, rfl, rfl⟩, ?_,
    fun vid rate dep p r days => ⟨rfl, rfl, rfl, rfl⟩, ?_⟩
  · have hd : daysBetween 0 259200 = 3 := rfl
    have hmax : max (1 : Int) 3 = 3 := by norm_num
    refine ⟨?_, ?_, ?_, ?_⟩ <;> simp [ceoComputePricing, hd, hmax] <;> norm_num
  intro ex vid p r now d h
  unfold vehValidate at h
  split at h
  · simp at h
  · split at h
    · simp at h
    · split at h
      · simp at h
      · simp only [Res.ok.injEq] at h
        exact h.symm

/-- Witness for the amended claim C2: validating a 2-day vehicle booking
returns exactly the floor day count. -/
theorem pricing_amended_witness : (2 : Int) = daysBetween 0 172800 :=
  pricing_amended.2.2.2 [] 0 0 172800 0 2 (by decide)

/-- Claim C3: a second cancel after a successful cancel fails with the
invalid-transition error in both apps (so the cancellation fee cannot be
charged twice), and confirming an already confirmed booking fails too. -/
theorem cancel_twice_rejected :
    (∀ (b : CeoBooking) (car car2 : CarStatus) (now now2 : Int) (r : CeoActionResult),
      ceoCancelAction b car now = Res.ok r →
      ceoCancelAction r.booking car2 now2 = Res.error .invalidTransition) ∧
    (∀ (b : CeoBooking) (car car2 : CarStatus) (r : CeoActionResult),
      ceoConfirmAction b car = Res.ok r →
      ceoConfirmAction r.booking car2 = Res.error .invalidTransition) ∧
    (∀ (b : VehBooking) (now now2 : Int) (r : VehCancelResult),
      vehCancelBooking b now = Res.ok r →
      vehCancelBooking r.booking now2 = Res.error .invalidTransition) := by
  refine ⟨?_, ?_, ?_⟩
  · intro b car car2 now now2 r h
    have hst : r.booking.status = .cancelled := by
      unfold ceoCancelAction at h
      split at h
      · simp only [Res.ok.injEq] at h
        rw [← h, ceoBookingSave_status]
      · simp at h
    unfold ceoCancelAction
    rw [if_neg]
    simp [ceoCanCancel, hst]
  · intro b car car2 r h
    have hst : r.booking.status = .confirmed := by
      unfold ceoConfirmAction at h
      split at h
      · simp at h
      · simp only [Res.ok.injEq] at h
        rw [← h, ceoBookingSave_status]
    unfold ceoConfirmAction
    rw [if_pos]
    rw [hst]
    simp
  · intro b now now2 r h
    have hst : r.booking.status = .cancelled := by
      unfold vehCancelBooking at h
      split at h
      · simp at h
      · simp only [Res.ok.injEq] at h
        rw [← h]
        rfl
    unfold vehCancelBooking
    rw [if_pos (Or.inr hst)]

/-- A pending ceo booking, starting at second 100, used by witnesses. -/
def pendingBooking : CeoBooking :=
  { carId := 0, start_date := 100, end_date := 86500, daily_rate := 100,
    duration_days := 1, subtotal := 100, tax_amount := 10, total_amount := 110,
    status := .pending, cancellation_date := none }

/-- The result of cancelling pendingBooking at time 0. -/
def pendingBookingCancelled : CeoActionResult :=
  { booking := { pendingBooking with status := .cancelled, cancellation_date := some 0 },
    carStatusAfter := .available, historyAppended := 2 }

/-- Cancelling pendingBooking at time 0 succeeds and yields
pendingBookingCancelled. -/
theorem pendingBooking_cancel_eq :
    ceoCancelAction pendingBooking .available 0 = Res.ok pendingBookingCancelled := by
  have hd : daysBetween 100 86500 = 1 := rfl
  have hcan : ceoCanCancel pendingBooking 0 = true := rfl
  unfold ceoCancelAction
  rw [if_pos hcan]
  norm_num [signalOnSave, ceoBookingSave, hd, pendingBooking, pendingBookingCancelled]
  decide

/-- Witness for claim C3: cancelling the already-cancelled pendingBooking is
rejected. -/
theorem cancel_twice_rejected_witness :
    ceoCancelAction pendingBookingCancelled.booking .available 50 =
      Res.error .invalidTransition :=
  cancel_twice_rejected.1 pendingBooking .available .available 0 50
    pendingBookingCancelled pendingBooking_cancel_eq

/-- A pending vehicle booking with total 100 and nothing paid, used as a
concrete input below. -/
def unpaidVehBooking : VehBooking :=
  { vehicleId := 0, pickup_date := 1000000, return_date := 2000000,
    rental_days := 1, daily_rate := 100, subtotal := 100, tax_amount := 0,
    security_deposit := 0, late_fee := 0, total_amount := 100,
    amount_paid := 0, balance_due := 100, status := .pending,
    payment_status := .pending }

/-- Claim C4 counterexample: overpaying the 100-total booking with 150
leaves balance_due at -50, not at max 0 of the difference as the claim
states. -/
theorem balance_due_clamp_counterexample :
    (vehApplyPayment unpaidVehBooking 150).booking.balance_due ≠
      max 0 (unpaidVehBooking.total_amount -
        (vehApplyPayment unpaidVehBooking 150).booking.amount_paid) := by
  have hbal : (vehApplyPayment unpaidVehBooking 150).booking.balance_due = -50 := by
    norm_num [vehApplyPayment, vehBookingSave, unpaidVehBooking]
  have hpaid : (vehApplyPayment unpaidVehBooking 150).booking.amount_paid = 150 := by
    norm_num [vehApplyPayment, vehBookingSave, unpaidVehBooking]
  have htot : unpaidVehBooking.total_amount = 100 := rfl
  rw [hbal, hpaid, htot]
  rw [max_eq_left (by norm_num : (100 : ℚ) - 150 ≤ 0)]
  norm_num

/-- Claim C4 as amended: after apply_payment, amount_paid grows by the
amount and balance_due equals total_amount minus the new amount_paid with
no clamping (overpayment drives it negative); when the balance is
nonpositive the payment_status becomes completed, a receipt is generated
and the booking status is set to confirmed regardless of its prior status;
otherwise the payment_status is pending, no receipt is generated and the
booking status is unchanged. -/
theorem apply_payment_amended :
    ∀ (b : VehBooking) (a : ℚ),
      (vehApplyPayment b a).booking.amount_paid = b.amount_paid + a ∧
      (vehApplyPayment b a).booking.balance_due =
        b.total_amount - (b.amount_paid + a) ∧
      (b.total_amount - (b.amount_paid + a) ≤ 0 →
        (vehApplyPayment b a).booking.payment_status = .completed ∧
        (vehApplyPayment b a).booking.status = .confirmed ∧
        (vehApplyPayment b a).receiptCreated = true) ∧
      (0 < b.total_amount - (b.amount_paid + a) →
        (vehApplyPayment b a).booking.payment_status = .pending ∧
        (vehApplyPayment b a).booking.status = b.status ∧
        (vehApplyPayment b a).receiptCreated = false) := by
  intro b a
  by_cases hb : b.total_amount - (b.amount_paid + a) ≤ 0
  · refine ⟨?_, ?_, fun _ => ?_, fun h => absurd hb (not_le.mpr h)⟩ <;>
      simp [vehApplyPayment, vehBookingSave, hb]
  · refine ⟨?_, ?_, fun h => absurd h hb, fun _ => ?_⟩ <;>
      simp [vehApplyPayment, vehBookingSave, hb]

/-- Witness for the amended claim C4: paying the full 100 balance completes
the payment, creates a receipt and confirms the pending booking. -/
theorem apply_payment_amended_witness :
    (vehApplyPayment unpaidVehBooking 100).booking.payment_status = .completed ∧
    (vehApplyPayment unpaidVehBooking 100).booking.status = .confirmed ∧
    (vehApplyPayment unpaidVehBooking 100).receiptCreated = true :=
  (apply_payment_amended unpaidVehBooking 100).2.2.1
    (by norm_num [unpaidVehBooking])

/-- A customer profile with zeroed aggregates. -/
def freshCustomer : CeoCustomer :=
  { total_bookings := 0, total_spent := 0, average_rating := 0 }

/-- Claim C5 counterexample: creating a booking sets the car status to
rented in the ceo app and to in_use in the vehicle app, never to reserved. -/
theorem create_reserved_counterexample :
    (ceoBookingCreate 0 100 0 259200 freshCustomer).carStatusAfter = CarStatus.rented ∧
    (vehBookingCreate 0 100 50 0 259200 3).vehicleStatusAfter = VehicleStatus.inUse ∧
    CarStatus.rented ≠ CarStatus.reserved :=
  ⟨rfl, rfl, by decide⟩

/-- Claim C5 as amended: a successful creation leaves the booking pending
and writes one history row (ceo) or an availability record (vehicle), but
sets the resource status to rented in the ceo app and to in_use in the
vehicle app, not to reserved. -/
theorem create_side_effects_amended :
    (∀ (cid : Nat) (rate : ℚ) (s e : Int) (cust : CeoCustomer),
      (ceoBookingCreate cid rate s e cust).booking.status = .pending ∧
      (ceoBookingCreate cid rate s e cust).historyAppended = 1 ∧
      (ceoBookingCreate cid rate s e cust).carStatusAfter = .rented) ∧
    (∀ (vid : Nat) (rate dep : ℚ) (p r days : Int),
      (vehBookingCreate vid rate dep p r days).booking.status = .pending ∧
      (vehBookingCreate vid rate dep p r days).availabilityCreated = true ∧
      (vehBookingCreate vid rate dep p r days).vehicleStatusAfter = .inUse) := by
  refine ⟨fun cid rate s e cust => ⟨?_, rfl, rfl⟩,
    fun vid rate dep p r days => ⟨rfl, rfl, rfl⟩⟩
  show (ceoBookingSave _).status = _
  rw [ceoBookingSave_status]

/-- A confirmed ceo booking starting 10 hours after time 0. -/
def confirmedSoonBooking : CeoBooking :=
  { carId := 0, start_date := 36000, end_date := 122400, daily_rate := 100,
    duration_days := 1, subtotal := 100, tax_amount := 10, total_amount := 110,
    status := .confirmed, cancellation_date := none }

/-- Claim C6 counterexample: cancelling a confirmed ceo booking 10 hours
before its start succeeds but leaves total_amount unchanged at 110; the 20
percent fee the claim requires would have produced a different total. -/
theorem cancellation_fee_counterexample :
    ceoCancelAction confirmedSoonBooking .rented 0 =
      Res.ok
        { booking := { confirmedSoonBooking with
                       status := .cancelled, cancellation_date := some 0 },
          carStatusAfter := .available, historyAppended := 2 } ∧
    ({ confirmedSoonBooking with
       status := CeoBookingStatus.cancelled,
       cancellation_date := some 0 } : CeoBooking).total_amount =
      confirmedSoonBooking.total_amount ∧
    confirmedSoonBooking.total_amount ≠
      confirmedSoonBooking.total_amount +
        confirmedSoonBooking.total_amount * (2 / 10) := by
  refine ⟨?_, rfl, ?_⟩
  · have hd : daysBetween 36000 122400 = 1 := rfl
    have hcan : ceoCanCancel confirmedSoonBooking 0 = true := rfl
    unfold ceoCancelAction
    rw [if_pos hcan]
    norm_num [signalOnSave, ceoBookingSave, hd, confirmedSoonBooking]
    decide
  · have h110 : confirmedSoonBooking.total_amount = 110 := rfl
    rw [h110]
    norm_num

/-- ceoBookingSave leaves total_amount unchanged on a booking whose pricing
fields are already consistent. -/
theorem ceoBookingSave_total (b : CeoBooking)
    (h1 : b.subtotal =
      b.daily_rate * ((max 1 (daysBetween b.start_date b.end_date) : Int) : ℚ))
    (h2 : b.total_amount = b.subtotal + b.tax_amount) :
    (ceoBookingSave b).total_amount = b.total_amount := by
  unfold ceoBookingSave
  split
  · show b.daily_rate * _ + b.tax_amount = b.total_amount
    rw [h2, h1]
  · rfl

/-- Claim C6 as amended: in the vehicle app a successful cancel marks the
booking cancelled and the vehicle available, and adds the 20 percent fee to
late_fee, total_amount and balance_due exactly when the cancellation is
fewer than 48 hours before pickup; in the ceo app a successful cancel sets
the car available but never adds any fee (on a pricing-consistent booking
the total is unchanged). -/
theorem cancellation_fee_amended :
    (∀ (b : VehBooking) (now : Int) (r : VehCancelResult),
      vehCancelBooking b now = Res.ok r →
      r.vehicleStatusAfter = .available ∧ r.booking.status = .cancelled ∧
      (((b.pickup_date - now : Int) : ℚ) / 3600 < 48 →
        r.booking.late_fee = b.total_amount * (2 / 10) ∧
        r.booking.total_amount = b.total_amount + b.total_amount * (2 / 10) ∧
        r.booking.balance_due = r.booking.total_amount - b.amount_paid) ∧
      (¬ ((b.pickup_date - now : Int) : ℚ) / 3600 < 48 →
        r.booking.late_fee = b.late_fee ∧
        r.booking.total_amount = b.total_amount ∧
        r.booking.balance_due = b.total_amount - b.amount_paid)) ∧
    (∀ (b : CeoBooking) (car : CarStatus) (now : Int) (r : CeoActionResult),
      b.subtotal =
        b.daily_rate * ((max 1 (daysBetween b.start_date b.end_date) : Int) : ℚ) →
      b.total_amount = b.subtotal + b.tax_amount →
      ceoCancelAction b car now = Res.ok r →
      r.booking.total_amount = b.total_amount ∧ r.carStatusAfter = .available) := by
  constructor
  · intro b now r h
    unfold vehCancelBooking at h
    split at h
    · simp at h
    · simp only [Res.ok.injEq] at h
      rw [← h]
      refine ⟨rfl, rfl, fun ht => ?_, fun ht => ?_⟩
      · rw [if_pos ht]
        exact ⟨rfl, rfl, rfl⟩
      · rw [if_neg ht]
        exact ⟨rfl, rfl, rfl⟩
  · intro b car now r h1 h2 hok
    unfold ceoCancelAction at hok
    split at hok
    · simp only [Res.ok.injEq] at hok
      rw [← hok]
      exact ⟨ceoBookingSave_total _ h1 h2, rfl⟩
    · simp at hok

/-- A confirmed vehicle booking starting 10 hours after time 0 with total
100 and nothing paid. -/
def confirmedSoonVehBooking : VehBooking :=
  { vehicleId := 0, pickup_date := 36000, return_date := 122400,
    rental_days := 1, daily_rate := 100, subtotal := 100, tax_amount := 0,
    security_deposit := 0, late_fee := 0, total_amount := 100,
    amount_paid := 0, balance_due := 100, status := .confirmed,
    payment_status := .pending }

/-- The result of cancelling confirmedSoonVehBooking at time 0: the 20
percent fee is applied. -/
def confirmedSoonVehCancelled : VehCancelResult :=
  { booking := { confirmedSoonVehBooking with
                 status := .cancelled, late_fee := 20,
                 total_amount := 120, balance_due := 120 },
    vehicleStatusAfter := .available, availabilityRemoved := true }

/-- Cancelling confirmedSoonVehBooking at time 0 succeeds with the fee
applied. -/
theorem confirmedSoonVeh_cancel_eq :
    vehCancelBooking confirmedSoonVehBooking 0 = Res.ok confirmedSoonVehCancelled := by
  norm_num [vehCancelBooking, vehBookingSave, confirmedSoonVehBooking,
    confirmedSoonVehCancelled]
  exact fun h => absurd h (by decide)

/-- Witness for the amended claim C6: the concrete 10-hours-before cancel
gets the 20 percent fee and frees the vehicle. -/
theorem cancellation_fee_amended_witness :
    confirmedSoonVehCancelled.booking.total_amount =
      confirmedSoonVehBooking.total_amount +
        confirmedSoonVehBooking.total_amount * (2 / 10) ∧
    confirmedSoonVehCancelled.vehicleStatusAfter = VehicleStatus.available := by
  have h := cancellation_fee_amended.1 confirmedSoonVehBooking 0
    confirmedSoonVehCancelled confirmedSoonVeh_cancel_eq
  exact ⟨(h.2.2.1 (by norm_num [confirmedSoonVehBooking])).2.1, h.1⟩

/-- Claim C7 counterexample: creating a single booking for a fresh customer
raises total_bookings to 1 while the booking itself is pending, so the
aggregate no longer equals the count over the customer's completed
bookings (which is 0). -/
theorem customer_stats_counterexample :
    (ceoBookingCreate 0 100 0 259200 freshCustomer).customerAfter.total_bookings = 1 ∧
    (ceoBookingCreate 0 100 0 259200 freshCustomer).booking.status ≠
      CeoBookingStatus.completed ∧
    completedCount [(ceoBookingCreate 0 100 0 259200 freshCustomer).booking] = 0 := by
  have hst : (ceoBookingCreate 0 100 0 259200 freshCustomer).booking.status =
      CeoBookingStatus.pending := by
    show (ceoBookingSave _).status = _
    rw [ceoBookingSave_status]
  refine ⟨rfl, ?_, ?_⟩
  · rw [hst]; decide
  · simp [completedCount, hst]

/-- Claim C7 as amended: the customer aggregates are mutated at booking
creation, not completion: each creation increments total_bookings and adds
the booking total to total_spent while the new booking is still pending;
average_rating is never touched. -/
theorem customer_stats_amended :
    ∀ (cid : Nat) (rate : ℚ) (s e : Int) (cust : CeoCustomer),
      (ceoBookingCreate cid rate s e cust).customerAfter.total_bookings =
        cust.total_bookings + 1 ∧
      (ceoBookingCreate cid rate s e cust).customerAfter.total_spent =
        cust.total_spent + (ceoComputePricing rate s e).total_amount ∧
      (ceoBookingCreate cid rate s e cust).customerAfter.average_rating =
        cust.average_rating ∧
      (ceoBookingCreate cid rate s e cust).booking.status = .pending := by
  intro cid rate s e cust
  refine ⟨rfl, rfl, rfl, ?_⟩
  show (ceoBookingSave _).status = _
  rw [ceoBookingSave_status]

/-- The result of confirming pendingBooking: two history rows appended. -/
def pendingBookingConfirmed : CeoActionResult :=
  { booking := { pendingBooking with status := .confirmed },
    carStatusAfter := .rented, historyAppended := 2 }

/-- Confirming pendingBooking succeeds, appending two history rows: one
from the pre_save signal and one created explicitly by the view. -/
theorem pendingBooking_confirm_eq :
    ceoConfirmAction pendingBooking .available = Res.ok pendingBookingConfirmed := by
  have hd : daysBetween 100 86500 = 1 := rfl
  unfold ceoConfirmAction
  rw [if_neg (by decide : ¬ pendingBooking.status ≠ CeoBookingStatus.pending)]
  norm_num [signalOnSave, ceoBookingSave, hd, pendingBooking, pendingBookingConfirmed]
  decide

/-- Claim C8 counterexample: confirming a pending booking appends two
BookingHistory rows, not exactly one. -/
theorem history_rows_counterexample :
    ceoConfirmAction pendingBooking .available = Res.ok pendingBookingConfirmed ∧
    pendingBookingConfirmed.historyAppended = 2 ∧ (2 : Nat) ≠ 1 :=
  ⟨pendingBooking_confirm_eq, rfl, by decide⟩

/-- Claim C8 as amended: every successful status-changing view action of
the ceo app (confirm, cancel, checkout, checkin) appends exactly two
history rows: one written by the pre_save signal because the stored status
changed, and one created explicitly by the view. -/
theorem history_rows_amended :
    (∀ (b : CeoBooking) (car : CarStatus) (r : CeoActionResult),
      ceoConfirmAction b car = Res.ok r → r.historyAppended = 2) ∧
    (∀ (b : CeoBooking) (car : CarStatus) (now : Int) (r : CeoActionResult),
      ceoCancelAction b car now = Res.ok r → r.historyAppended = 2) ∧
    (∀ (b : CeoBooking) (car : CarStatus) (r : CeoActionResult),
      ceoCheckoutAction b car = Res.ok r → r.historyAppended = 2) ∧
    (∀ (b : CeoBooking) (car : CarStatus) (r : CeoActionResult),
      ceoCheckinAction b car = Res.ok r → r.historyAppended = 2) := by
  refine ⟨?_, ?_, ?_, ?_⟩
  · intro b car r h
    unfold ceoConfirmAction at h
    split at h
    · simp at h
    · next hguard =>
      simp only [Res.ok.injEq] at h
      rw [← h]
      have hp : b.status = .pending := not_not.mp hguard
      simp [signalOnSave, hp]
  · intro b car now r h
    unfold ceoCancelAction at h
    split at h
    · next hguard =>
      simp only [Res.ok.injEq] at h
      rw [← h]
      have hne : b.status ≠ .cancelled := by
        simp only [ceoCanCancel, Bool.and_eq_true, Bool.or_eq_true,
          beq_iff_eq, decide_eq_true_eq] at hguard
        rcases hguard.1 with h1 | h1 <;> rw [h1] <;> decide
      simp [signalOnSave, hne]
    · simp at h
  · intro b car r h
    unfold ceoCheckoutAction at h
    split at h
    · simp at h
    · next hguard =>
      simp only [Res.ok.injEq] at h
      rw [← h]
      have hp : b.status = .confirmed := not_not.mp hguard
      simp [signalOnSave, hp]
  · intro b car r h
    unfold ceoCheckinAction at h
    split at h
    · simp at h
    · next hguard =>
      simp only [Res.ok.injEq] at h
      rw [← h]
      have hp : b.status = .active := not_not.mp hguard
      simp [signalOnSave, hp]

/-- Witness for the amended claim C8: the concrete confirm appends two
history rows. -/
theorem history_rows_amended_witness : pendingBookingConfirmed.historyAppended = 2 :=
  history_rows_amended.1 pendingBooking .available pendingBookingConfirmed
    pendingBooking_confirm_eq

/-- Claim C9 counterexample: in the ceo app a booking request whose range
is zero-length (start = end = 5) is not rejected: validation succeeds and
the availability query was executed on that range. -/
theorem date_order_counterexample :
    (ceoValidate [] 0 5 5 true true 100 true 0).outcome = Res.ok () ∧
    (ceoValidate [] 0 5 5 true true 100 true 0).availabilityChecked = true := by
  decide

/-- Claim C9 as amended: the vehicle app rejects start >= end before the
availability check runs; the ceo app has no date-order validation at all:
its availability query always runs, and a zero-length or negative range
with no conflicting booking and valid remaining fields is accepted. -/
theorem date_order_amended :
    (∀ (ex : List VehBooking) (vid : Nat) (p r now : Int),
      r ≤ p →
      (vehValidate ex vid p r now).outcome = Res.error .returnBeforePickup ∧
      (vehValidate ex vid p r now).availabilityChecked = false) ∧
    (∀ (ex : List CeoBooking) (cid : Nat) (s e : Int) (sd lf : Bool)
        (lex : Int) (dpr : Bool) (today : Int),
      (ceoValidate ex cid s e sd lf lex dpr today).availabilityChecked = true) ∧
    (∀ (ex : List CeoBooking) (cid : Nat) (s e lex today : Int),
      s ≥ e →
      (ex.any fun b => ceoConflicts b cid s e) = false →
      ¬ lex < today →
      (ceoValidate ex cid s e true true lex true today).outcome = Res.ok ()) := by
  refine ⟨?_, ?_, ?_⟩
  · intro ex vid p r now h
    unfold vehValidate
    rw [if_pos h]
    exact ⟨rfl, rfl⟩
  · intro ex cid s e sd lf lex dpr today
    unfold ceoValidate
    repeat' split
    all_goals rfl
  · intro ex cid s e lex today _ h2 h3
    have hk : ¬ ((ex.any fun b => ceoConflicts b cid s e) = true) := by
      rw [h2]; decide
    unfold ceoValidate
    rw [if_neg hk]
    simp [h3]

/-- Witness for the amended claim C9: the vehicle app rejects the
zero-length range 5 to 5 without running the availability check. -/
theorem date_order_amended_witness :
    (vehValidate [] 0 5 5 0).outcome = Res.error .returnBeforePickup ∧
    (vehValidate [] 0 5 5 0).availabilityChecked = false :=
  date_order_amended.1 [] 0 5 5 0 (le_refl 5)

/-- Claim C10: every save of a ceo booking with both dates and a nonzero
daily_rate recomputes duration_days, subtotal and total_amount, so after a
save total_amount equals subtotal plus tax_amount exactly and any amount
previously added directly to total_amount is discarded. -/
theorem ceo_save_recompute :
    ∀ (b : CeoBooking) (x : ℚ),
      b.daily_rate ≠ 0 →
      (ceoBookingSave b).duration_days =
        max 1 (daysBetween b.start_date b.end_date) ∧
      (ceoBookingSave b).subtotal =
        b.daily_rate * ((max 1 (daysBetween b.start_date b.end_date) : Int) : ℚ) ∧
      (ceoBookingSave b).total_amount =
        (ceoBookingSave b).subtotal + b.tax_amount ∧
      ceoBookingSave { b with total_amount := x } = ceoBookingSave b := by
  intro b x h
  refine ⟨?_, ?_, ?_, ?_⟩ <;> simp [ceoBookingSave, h]

/-- Witness for claim C10: tampering with the stored total of
pendingBooking is undone by the next save. -/
theorem ceo_save_recompute_witness :
    ceoBookingSave { pendingBooking with total_amount := 999 } =
      ceoBookingSave pendingBooking :=
  (ceo_save_recompute pendingBooking 999 (by norm_num [pendingBooking])).2.2.2
